import Mathlib

/-!
Verification of the channel-registry core of `decentra-voice-mvp`
(`src/programs/decentra-voice-mvp/src/lib.rs`), a Solana/Anchor program.

The Rust program is shallowly embedded:
* `Channel` / `ChannelInfo` / `ChannelError` mirror the on-chain structs.
* `Pubkey` is abstracted as a natural number (only equality matters here).
* The `u32` field `participant_count` is modelled as an `Int` kept in
  `[0, 2^32)`; the Rust `+= 1` is wrapping addition modulo `2^32`
  (release-profile overflow semantics), written with an explicit `% 2^32`.
* The `i64` timestamp is modelled as `Int`; Rust `%` on `i64` is the
  truncated remainder `Int.tmod`, and `format!("\x7b:X\x7d", v)` on a
  negative `i64` prints the two's-complement 64-bit pattern, modelled by
  first reducing with the euclidean `% 2^64`.
* Stateful entry points take the channel record and return the updated
  record together with the Rust `Result`, modelled as `Except`.
-/

/-- Pubkey (32-byte account identity), abstracted: only its value identity
is relevant to the core. -/
abbrev Pubkey := Nat

/-- Uppercase hexadecimal digit character for a value `n < 16`,
as produced by Rust `format!("\x7b:X\x7d", _)`. -/
def hexDigitU (n : Nat) : Char :=
  if n < 10 then Char.ofNat (48 + n) else Char.ofNat (55 + n)

/-- Fuel-driven most-significant-first hex digit list of `n`
(empty for `n = 0`); `fuel ≥ n` makes the fuel irrelevant. -/
def natHexDigitsAux : Nat → Nat → List Char
  | 0, _ => []
  | fuel + 1, n =>
      if n = 0 then [] else natHexDigitsAux fuel (n / 16) ++ [hexDigitU (n % 16)]

/-- Hex digit list of `n`, most significant first; empty for `n = 0`. -/
def natHexDigits (n : Nat) : List Char := natHexDigitsAux n n

/-- Rust `format!("\x7b:X\x7d", n)` for a nonnegative value: uppercase
hexadecimal, no padding, `"0"` for zero. -/
def natToHexU (n : Nat) : String :=
  if n = 0 then "0" else String.mk (natHexDigits n)

/-- Rust `format!("\x7b:X\x7d", v)` for an `i64` value `v`: the
two's-complement 64-bit pattern rendered as unpadded uppercase hex. -/
def fmtUpperHexI64 (v : Int) : String :=
  natToHexU (v % (18446744073709551616 : Int)).toNat

/-- Embedding of `generate_channel_id` (lib.rs lines 91-95):
`suffix = format!("\x7b:X\x7d", timestamp % 0xFFFF)` followed by
`format!("CHAT-\x7b\x7d", &suffix[suffix.len().saturating_sub(4)..])`.
Note the Rust modulus is `0xFFFF = 65535` and `%` on `i64` truncates. -/
def generate_channel_id (timestamp : Int) : String :=
  let suffix := (fmtUpperHexI64 (Int.tmod timestamp 65535)).data
  "CHAT-" ++ String.mk (suffix.drop (suffix.length - 4))

/-- Embedding of the `Channel` account (lib.rs lines 125-133). -/
structure Channel where
  id : String
  name : String
  creator : Pubkey
  created_at : Int
  active : Bool
  participant_count : Int
  deriving Repr, DecidableEq

/-- Embedding of the `ChannelInfo` return struct (lib.rs lines 135-143). -/
structure ChannelInfo where
  id : String
  name : String
  creator : Pubkey
  created_at : Int
  participant_count : Int
  active : Bool
  deriving Repr, DecidableEq

/-- Embedding of the `ChannelError` error enum (lib.rs lines 145-153). -/
inductive ChannelError where
  | ChannelInactive
  | ChannelFull
  | Unauthorized
  deriving Repr, DecidableEq

/-- Embedding of `create_channel` (lib.rs lines 10-31): the freshly
provisioned account is filled in and the generated id is returned.
`now` is `Clock::get()?.unix_timestamp`, `creator` is `user.key()`. -/
def create_channel (name : String) (creator : Pubkey) (now : Int) :
    String × Channel :=
  let channel_id := generate_channel_id now
  (channel_id,
   { id := channel_id
     name := name
     creator := creator
     created_at := now
     active := true
     participant_count := 0 })

/-- Embedding of `join_channel` (lib.rs lines 33-55): `require!` on
`channel.active`, then the wrapping `u32` increment, then the snapshot. -/
def join_channel (channel : Channel) :
    Channel × Except ChannelError ChannelInfo :=
  if channel.active then
    let channel' :=
      { channel with
          participant_count :=
            (channel.participant_count + 1) % (4294967296 : Int) }
    (channel',
     Except.ok
       { id := channel'.id
         name := channel'.name
         creator := channel'.creator
         created_at := channel'.created_at
         participant_count := channel'.participant_count
         active := channel'.active })
  else
    (channel, Except.error ChannelError.ChannelInactive)

/-- Embedding of `leave_channel` (lib.rs lines 57-70): guarded decrement,
always returns `Ok(())`. -/
def leave_channel (channel : Channel) :
    Channel × Except ChannelError Unit :=
  if channel.participant_count > 0 then
    ({ channel with participant_count := channel.participant_count - 1 },
     Except.ok ())
  else
    (channel, Except.ok ())

/-- Embedding of `get_channel_info` (lib.rs lines 72-87): a pure snapshot. -/
def get_channel_info (channel : Channel) : ChannelInfo :=
  { id := channel.id
    name := channel.name
    creator := channel.creator
    created_at := channel.created_at
    participant_count := channel.participant_count
    active := channel.active }

/-- One mutating call against a single channel record. -/
inductive Op where
  | join
  | leave
  deriving Repr, DecidableEq

/-- The state of the record after one call (the returned value is
discarded; a failed join leaves the record as the program left it). -/
def applyOp (c : Channel) : Op → Channel
  | Op.join => (join_channel c).1
  | Op.leave => (leave_channel c).1

/-- The state of the record after a finite sequence of calls. -/
def applyOps (c : Channel) (ops : List Op) : Channel :=
  ops.foldl applyOp c

/-- Iterated leave: `n` successive `leave_channel` calls. -/
def leaveN : Nat → Channel → Channel
  | 0, c => c
  | n + 1, c => leaveN n (leave_channel c).1

/-- ASCII test for an uppercase hexadecimal digit `0-9A-F`. -/
def isUpperHexDigit (c : Char) : Bool :=
  (48 ≤ c.toNat && c.toNat ≤ 57) || (65 ≤ c.toNat && c.toNat ≤ 70)

/-! ### Properties of the hexadecimal rendering -/

theorem hexDigitU_upper : ∀ m : Nat, m < 16 → isUpperHexDigit (hexDigitU m) = true := by
  decide

theorem natHexDigitsAux_length_le :
    ∀ fuel n k : Nat, n ≤ fuel → n < 16 ^ k →
      (natHexDigitsAux fuel n).length ≤ k := by
  intro fuel
  induction fuel with
  | zero =>
      intro n k hn _
      have : n = 0 := Nat.le_zero.mp hn
      subst this
      simp [natHexDigitsAux]
  | succ f ih =>
      intro n k hn hk
      by_cases h0 : n = 0
      · simp [natHexDigitsAux, h0]
      · match k with
        | 0 =>
            simp only [pow_zero] at hk
            omega
        | k + 1 =>
            have hf : n / 16 ≤ f := by
              have := Nat.div_lt_self (Nat.pos_of_ne_zero h0)
                (by norm_num : 1 < 16)
              omega
            have hklt : n / 16 < 16 ^ k := by
              rw [Nat.div_lt_iff_lt_mul (by norm_num : 0 < 16)]
              calc n < 16 ^ (k + 1) := hk
                _ = 16 ^ k * 16 := by ring
            have := ih (n / 16) k hf hklt
            simp [natHexDigitsAux, h0]
            omega

theorem natHexDigitsAux_all_upper :
    ∀ fuel n : Nat, (natHexDigitsAux fuel n).all isUpperHexDigit = true := by
  intro fuel
  induction fuel with
  | zero => intro n; simp [natHexDigitsAux]
  | succ f ih =>
      intro n
      by_cases h0 : n = 0
      · simp [natHexDigitsAux, h0]
      · simp [natHexDigitsAux, h0, List.all_append, ih (n / 16),
          hexDigitU_upper (n % 16) (Nat.mod_lt n (by norm_num))]

theorem natToHexU_length_pos (n : Nat) : 1 ≤ (natToHexU n).length := by
  by_cases h0 : n = 0
  · simp only [natToHexU, h0, if_true, reduceIte]
    decide
  · have hfuel : n ≤ n := le_refl n
    obtain ⟨f, hf⟩ : ∃ f, n = f + 1 := ⟨n - 1, by omega⟩
    simp only [natToHexU, h0, if_false]
    show 1 ≤ (natHexDigits n).length
    rw [natHexDigits, hf]
    simp [natHexDigitsAux, show f + 1 ≠ 0 by omega]

theorem natToHexU_length_le (n : Nat) (h : n < 65536) :
    (natToHexU n).length ≤ 4 := by
  by_cases h0 : n = 0
  · simp only [natToHexU, h0, if_true, reduceIte]
    decide
  · simp only [natToHexU, h0, if_false]
    show (natHexDigits n).length ≤ 4
    exact natHexDigitsAux_length_le n n 4 (le_refl n) (by norm_num at h ⊢; omega)

theorem natToHexU_all_upper (n : Nat) :
    (natToHexU n).data.all isUpperHexDigit = true := by
  by_cases h0 : n = 0
  · simp [natToHexU, h0]; decide
  · simp only [natToHexU, h0, if_false]
    exact natHexDigitsAux_all_upper n n

theorem generate_channel_id_eq_hex (seed : Int) (h : 0 ≤ seed) :
    generate_channel_id seed = "CHAT-" ++ natToHexU (seed.toNat % 65535) := by
  have htm : Int.tmod seed 65535 = seed % 65535 :=
    Int.tmod_eq_emod h (by norm_num)
  have hcast : seed % 65535 = ((seed.toNat % 65535 : Nat) : Int) := by
    push_cast
    rw [Int.toNat_of_nonneg h]
  have hlt : (seed.toNat % 65535 : Nat) < 65535 := Nat.mod_lt _ (by norm_num)
  have hemod64 :
      ((seed.toNat % 65535 : Nat) : Int) % 18446744073709551616
        = ((seed.toNat % 65535 : Nat) : Int) := by
    apply Int.emod_eq_of_lt
    · positivity
    · exact_mod_cast lt_trans hlt
        (by norm_num : (65535 : Nat) < 18446744073709551616)
  have hfmt : fmtUpperHexI64 (Int.tmod seed 65535)
      = natToHexU (seed.toNat % 65535) := by
    rw [fmtUpperHexI64, htm, hcast, hemod64, Int.toNat_natCast]
  have hlen : (natToHexU (seed.toNat % 65535)).data.length ≤ 4 := by
    have h4 := natToHexU_length_le (seed.toNat % 65535)
      (lt_trans hlt (by norm_num))
    have hsd : (natToHexU (seed.toNat % 65535)).data.length
        = (natToHexU (seed.toNat % 65535)).length := rfl
    rw [hsd]
    exact h4
  simp only [generate_channel_id, hfmt]
  have hdrop :
      (natToHexU (seed.toNat % 65535)).data.drop
          ((natToHexU (seed.toNat % 65535)).data.length - 4)
        = (natToHexU (seed.toNat % 65535)).data := by
    have hz : (natToHexU (seed.toNat % 65535)).data.length - 4 = 0 := by omega
    rw [hz, List.drop_zero]
  rw [hdrop]

/-! ### Claim theorems -/

/-- C1 (counterexample): at seed 65535 the claim fails: the code reduces
the seed modulo 65535 (Rust `% 0xFFFF`), not 65536, and does not pad, so
the output is `"CHAT-0"` (6 characters), not `"CHAT-"` followed by the
4 hex digits `FFFF` of `65535 mod 65536`. -/
theorem generate_channel_id_mod_counterexample :
    generate_channel_id 65535 = "CHAT-0"
    ∧ generate_channel_id 65535 ≠ "CHAT-FFFF"
    ∧ (generate_channel_id 65535).length ≠ 8
    ∧ (65535 : Int) % 65536 = 65535 := by
  refine ⟨by decide, by decide, by decide, by decide⟩

/-- C1 (amended): for every nonnegative seed, `generate_channel_id` is
deterministic and returns `"CHAT-"` followed by the unpadded uppercase
hexadecimal rendering of `seed mod 65535` — between 1 and 4 uppercase-hex
characters, the last (at most) 4 hex digits of `seed mod 65535`. -/
theorem generate_channel_id_shape (seed : Int) (h : 0 ≤ seed) :
    generate_channel_id seed = "CHAT-" ++ natToHexU (seed.toNat % 65535)
    ∧ 1 ≤ (natToHexU (seed.toNat % 65535)).length
    ∧ (natToHexU (seed.toNat % 65535)).length ≤ 4
    ∧ (natToHexU (seed.toNat % 65535)).data.all isUpperHexDigit = true
    ∧ ∀ t : Int, t = seed → generate_channel_id t = generate_channel_id seed :=
  ⟨generate_channel_id_eq_hex seed h,
   natToHexU_length_pos _,
   natToHexU_length_le _ (lt_trans (Nat.mod_lt _ (by norm_num)) (by norm_num)),
   natToHexU_all_upper _,
   fun _ ht => by rw [ht]⟩

/-- C1 (witness): the amended statement instantiated at seed 43981. -/
theorem generate_channel_id_shape_witness :
    generate_channel_id 43981 = "CHAT-" ++ natToHexU ((43981 : Int).toNat % 65535)
    ∧ 1 ≤ (natToHexU ((43981 : Int).toNat % 65535)).length
    ∧ (natToHexU ((43981 : Int).toNat % 65535)).length ≤ 4
    ∧ (natToHexU ((43981 : Int).toNat % 65535)).data.all isUpperHexDigit = true
    ∧ ∀ t : Int, t = 43981 →
        generate_channel_id t = generate_channel_id 43981 :=
  generate_channel_id_shape 43981 (by decide)

/-- A concrete active channel used to instantiate general theorems. -/
def sampleChannel : Channel :=
  { id := "CHAT-BE01"
    name := "general"
    creator := 7
    created_at := 305441741
    active := true
    participant_count := 5 }

/-- A concrete inactive channel. -/
def inactiveChannel : Channel :=
  { sampleChannel with active := false, participant_count := 3 }

/-- A concrete channel with zero participants. -/
def zeroChannel : Channel :=
  { sampleChannel with participant_count := 0 }

/-- A concrete channel whose `u32` counter sits at `u32::MAX`. -/
def maxChannel : Channel :=
  { sampleChannel with participant_count := 4294967295 }

theorem applyOp_nonneg (c : Channel) (op : Op)
    (h : 0 ≤ c.participant_count) : 0 ≤ (applyOp c op).participant_count := by
  cases op with
  | join =>
      by_cases ha : c.active
      · simp only [applyOp, join_channel, ha, if_true, reduceIte]
        exact Int.emod_nonneg _ (by norm_num)
      · simp only [applyOp, join_channel, ha, if_false, Bool.false_eq_true,
          reduceIte]
        exact h
  | leave =>
      by_cases hp : c.participant_count > 0
      · simp only [applyOp, leave_channel, hp, if_true, reduceIte]
        omega
      · simp only [applyOp, leave_channel, hp, if_false, reduceIte]
        exact h

/-- C2: from any record with a nonnegative participant count, every finite
sequence of join/leave calls leaves the count nonnegative — in particular
`leave_channel` never drives it below zero. -/
theorem participant_count_nonneg (c : Channel) (ops : List Op)
    (h : 0 ≤ c.participant_count) :
    0 ≤ (applyOps c ops).participant_count := by
  induction ops generalizing c with
  | nil => exact h
  | cons op rest ih =>
      have hstep := applyOp_nonneg c op h
      simpa [applyOps, List.foldl] using ih (applyOp c op) hstep

/-- C2 (witness): the invariant instantiated on a concrete record and a
concrete call sequence. -/
theorem participant_count_nonneg_witness :
    0 ≤ (applyOps sampleChannel
          [Op.leave, Op.leave, Op.join, Op.leave]).participant_count :=
  participant_count_nonneg sampleChannel
    [Op.leave, Op.leave, Op.join, Op.leave] (by decide)

/-- C3: joining a channel whose `active` flag is false fails with
`ChannelInactive` and leaves the record — in particular its participant
count — exactly as it was. -/
theorem join_inactive_fails (c : Channel) (h : c.active = false) :
    join_channel c = (c, Except.error ChannelError.ChannelInactive) := by
  simp [join_channel, h]

/-- C3 (witness): the failure instantiated on a concrete inactive record. -/
theorem join_inactive_fails_witness :
    join_channel inactiveChannel
      = (inactiveChannel, Except.error ChannelError.ChannelInactive) :=
  join_inactive_fails inactiveChannel (by decide)

/-- C4 (counterexample): on an active channel whose `u32` counter sits at
`u32::MAX = 2^32 - 1`, the wrapping increment of `join_channel` produces 0,
not the old count plus 1, so the claim fails at that input. -/
theorem join_at_max_wraps :
    maxChannel.active = true
    ∧ (join_channel maxChannel).1.participant_count = 0
    ∧ (join_channel maxChannel).1.participant_count
        ≠ maxChannel.participant_count + 1 := by
  refine ⟨rfl, by decide, by decide⟩

/-- C4 (amended): on an active channel whose participant count is below
`2^32 - 1`, `join_channel` succeeds, increments the count by exactly 1,
and returns a snapshot whose fields equal the updated channel's fields. -/
theorem join_active_increments (c : Channel) (hact : c.active = true)
    (h0 : 0 ≤ c.participant_count)
    (hlt : c.participant_count < 4294967295) :
    join_channel c =
      ({ c with participant_count := c.participant_count + 1 },
       Except.ok
         { id := c.id
           name := c.name
           creator := c.creator
           created_at := c.created_at
           participant_count := c.participant_count + 1
           active := true }) := by
  have hmod : (c.participant_count + 1) % (4294967296 : Int)
      = c.participant_count + 1 :=
    Int.emod_eq_of_lt (by omega) (by omega)
  simp [join_channel, hact, hmod]

/-- C4 (witness): the amended statement instantiated on a concrete active
record with count 5. -/
theorem join_active_increments_witness :
    join_channel sampleChannel =
      ({ sampleChannel with
           participant_count := sampleChannel.participant_count + 1 },
       Except.ok
         { id := sampleChannel.id
           name := sampleChannel.name
           creator := sampleChannel.creator
           created_at := sampleChannel.created_at
           participant_count := sampleChannel.participant_count + 1
           active := true }) :=
  join_active_increments sampleChannel (by decide) (by decide) (by decide)

/-- C5: `leave_channel` always returns `Ok(())`; with a positive count it
decrements by exactly 1, and on a zero count it is a no-op, so any number
of successive leaves keeps the record (and its zero count) unchanged. -/
theorem leave_never_fails (c : Channel) :
    (leave_channel c).2 = Except.ok ()
    ∧ (0 < c.participant_count →
        (leave_channel c).1
          = { c with participant_count := c.participant_count - 1 })
    ∧ (c.participant_count = 0 → ∀ n : Nat, leaveN n c = c) := by
  refine ⟨?_, ?_, ?_⟩
  · by_cases hp : c.participant_count > 0 <;> simp [leave_channel, hp]
  · intro hp
    simp [leave_channel, hp]
  · intro hz n
    have hstep : (leave_channel c).1 = c := by
      simp [leave_channel, hz]
    induction n with
    | zero => rfl
    | succ m ih =>
        simp only [leaveN, hstep]
        exact ih

/-- C5 (witness): instantiated on a concrete zero-count record with three
successive leaves. -/
theorem leave_never_fails_witness :
    (leave_channel zeroChannel).2 = Except.ok ()
    ∧ leaveN 3 zeroChannel = zeroChannel :=
  ⟨(leave_never_fails zeroChannel).1,
   (leave_never_fails zeroChannel).2.2 (by decide) 3⟩

theorem applyOp_frame (c : Channel) (op : Op) :
    (applyOp c op).id = c.id
    ∧ (applyOp c op).name = c.name
    ∧ (applyOp c op).creator = c.creator
    ∧ (applyOp c op).created_at = c.created_at
    ∧ (applyOp c op).active = c.active := by
  cases op <;>
    simp only [applyOp, join_channel, leave_channel] <;>
    split <;> simp

theorem applyOps_frame (c : Channel) (ops : List Op) :
    (applyOps c ops).id = c.id
    ∧ (applyOps c ops).name = c.name
    ∧ (applyOps c ops).creator = c.creator
    ∧ (applyOps c ops).created_at = c.created_at
    ∧ (applyOps c ops).active = c.active := by
  induction ops generalizing c with
  | nil => exact ⟨rfl, rfl, rfl, rfl, rfl⟩
  | cons op rest ih =>
      have h1 := applyOp_frame c op
      have h2 := ih (applyOp c op)
      simp only [applyOps, List.foldl] at h2 ⊢
      exact ⟨h2.1.trans h1.1, h2.2.1.trans h1.2.1,
        h2.2.2.1.trans h1.2.2.1, h2.2.2.2.1.trans h1.2.2.2.1,
        h2.2.2.2.2.trans h1.2.2.2.2⟩

/-- C6: no sequence of join/leave calls changes `id`, `name`, `creator`,
`created_at` or `active`; on a record made by `create_channel`,
`get_channel_info` afterwards still reports the creation-time values. -/
theorem channel_fields_immutable (c : Channel) (ops : List Op)
    (nm : String) (cr : Pubkey) (ts : Int) :
    ((applyOps c ops).id = c.id
      ∧ (applyOps c ops).name = c.name
      ∧ (applyOps c ops).creator = c.creator
      ∧ (applyOps c ops).created_at = c.created_at
      ∧ (applyOps c ops).active = c.active)
    ∧ ((get_channel_info (applyOps (create_channel nm cr ts).2 ops)).id
          = (create_channel nm cr ts).1
        ∧ (get_channel_info (applyOps (create_channel nm cr ts).2 ops)).name
          = nm
        ∧ (get_channel_info (applyOps (create_channel nm cr ts).2 ops)).creator
          = cr
        ∧ (get_channel_info
            (applyOps (create_channel nm cr ts).2 ops)).created_at = ts
        ∧ (get_channel_info (applyOps (create_channel nm cr ts).2 ops)).active
          = true) := by
  refine ⟨applyOps_frame c ops, ?_⟩
  have h := applyOps_frame (create_channel nm cr ts).2 ops
  simp only [get_channel_info]
  exact ⟨h.1, h.2.1, h.2.2.1, h.2.2.2.1, h.2.2.2.2⟩

/-- C7 (counterexample): creating with `created_at = 305441741` yields the
id `"CHAT-BE01"` (`305441741 % 0xFFFF = 48641 = 0xBE01` under the code's
mod-65535 reduction), not the claimed `"CHAT-FD4D"`. -/
theorem scenario_id_mismatch :
    (create_channel "general" 0 305441741).1 = "CHAT-BE01"
    ∧ (create_channel "general" 0 305441741).1 ≠ "CHAT-FD4D" := by
  refine ⟨by decide, by decide⟩

/-- C7 (amended): creating with name `"general"` and timestamp 305441741
yields id `"CHAT-BE01"`; one join returns a snapshot with count 1 and
active true; one leave returns the count to 0; the final read reflects
count 0, active true and the original name, creator and timestamp. -/
theorem end_to_end_scenario (cr : Pubkey) :
    (create_channel "general" cr 305441741).1 = "CHAT-BE01"
    ∧ (create_channel "general" cr 305441741).2.id = "CHAT-BE01"
    ∧ (join_channel (create_channel "general" cr 305441741).2).2
        = Except.ok
            { id := "CHAT-BE01"
              name := "general"
              creator := cr
              created_at := 305441741
              participant_count := 1
              active := true }
    ∧ (leave_channel
        (join_channel
          (create_channel "general" cr 305441741).2).1).1.participant_count
        = 0
    ∧ get_channel_info
        (leave_channel
          (join_channel (create_channel "general" cr 305441741).2).1).1
        = { id := "CHAT-BE01"
            name := "general"
            creator := cr
            created_at := 305441741
            participant_count := 0
            active := true } := by
  refine ⟨rfl, rfl, rfl, rfl, rfl⟩

/-- C8: `create_channel` returns the id generated from the creation
timestamp and a record with that id, the supplied name, creator and
timestamp, `active = true` and `participant_count = 0`. -/
theorem create_channel_spec (nm : String) (cr : Pubkey) (ts : Int) :
    (create_channel nm cr ts).1 = generate_channel_id ts
    ∧ (create_channel nm cr ts).2.id = generate_channel_id ts
    ∧ (create_channel nm cr ts).2.name = nm
    ∧ (create_channel nm cr ts).2.creator = cr
    ∧ (create_channel nm cr ts).2.created_at = ts
    ∧ (create_channel nm cr ts).2.active = true
    ∧ (create_channel nm cr ts).2.participant_count = 0 := by
  refine ⟨rfl, rfl, rfl, rfl, rfl, rfl, rfl⟩

/-- C9: no core operation ever produces `ChannelFull` or `Unauthorized`:
the only error any path can raise is `ChannelInactive` from a join on an
inactive channel; `leave_channel` always succeeds, and a join on an active
channel succeeds whatever the current participant count is (no capacity
check exists). -/
theorem reserved_errors_unreachable (c : Channel) :
    (∀ e : ChannelError,
        (join_channel c).2 = Except.error e → e = ChannelError.ChannelInactive)
    ∧ (leave_channel c).2 = Except.ok ()
    ∧ (c.active = true →
        (join_channel c).2
          = Except.ok (get_channel_info (join_channel c).1)) := by
  refine ⟨?_, ?_, ?_⟩
  · intro e he
    by_cases ha : c.active
    · simp [join_channel, ha] at he
    · simp [join_channel, ha] at he
      exact he.symm
  · by_cases hp : c.participant_count > 0 <;> simp [leave_channel, hp]
  · intro ha
    simp [join_channel, get_channel_info, ha]

/-- C9 (witness): instantiated on a concrete active record: the join
succeeds (so neither reserved error is produced) and the leave succeeds. -/
theorem reserved_errors_unreachable_witness :
    (leave_channel sampleChannel).2 = Except.ok ()
    ∧ (join_channel sampleChannel).2
        = Except.ok (get_channel_info (join_channel sampleChannel).1) :=
  ⟨(reserved_errors_unreachable sampleChannel).2.1,
   (reserved_errors_unreachable sampleChannel).2.2 rfl⟩

theorem applyOp_bounds (c : Channel) (op : Op)
    (h0 : 0 ≤ c.participant_count)
    (h1 : c.participant_count < 4294967296) :
    0 ≤ (applyOp c op).participant_count
    ∧ (applyOp c op).participant_count < 4294967296 := by
  cases op with
  | join =>
      by_cases ha : c.active
      · simp only [applyOp, join_channel, ha, if_true, reduceIte]
        exact ⟨Int.emod_nonneg _ (by norm_num),
          Int.emod_lt_of_pos _ (by norm_num)⟩
      · simp only [applyOp, join_channel, ha, if_false, Bool.false_eq_true,
          reduceIte]
        exact ⟨h0, h1⟩
  | leave =>
      by_cases hp : c.participant_count > 0
      · simp only [applyOp, leave_channel, hp, if_true, reduceIte]
        constructor <;> omega
      · simp only [applyOp, leave_channel, hp, if_false, reduceIte]
        exact ⟨h0, h1⟩

/-- C10: `participant_count` is a `u32`: starting inside `[0, 2^32)` it
stays inside `[0, 2^32)` under every sequence of calls, a join on an
active channel yields `old + 1` exactly when `old < 2^32 - 1`, and at
`old = 2^32 - 1` the wrapping increment produces 0. -/
theorem participant_count_u32_bounds (c : Channel)
    (h0 : 0 ≤ c.participant_count)
    (h1 : c.participant_count < 4294967296) :
    (∀ ops : List Op,
        0 ≤ (applyOps c ops).participant_count
        ∧ (applyOps c ops).participant_count < 4294967296)
    ∧ (c.active = true →
        ((join_channel c).1.participant_count = c.participant_count + 1
          ↔ c.participant_count < 4294967295))
    ∧ (c.active = true → c.participant_count = 4294967295 →
        (join_channel c).1.participant_count = 0) := by
  refine ⟨?_, ?_, ?_⟩
  · intro ops
    induction ops generalizing c with
    | nil => exact ⟨h0, h1⟩
    | cons op rest ih =>
        have hstep := applyOp_bounds c op h0 h1
        simpa [applyOps, List.foldl] using
          ih (applyOp c op) hstep.1 hstep.2
  · intro ha
    have hj : (join_channel c).1.participant_count
        = (c.participant_count + 1) % 4294967296 := by
      simp [join_channel, ha]
    rw [hj]
    omega
  · intro ha hm
    simp [join_channel, ha, hm]

/-- C10 (witness): the bounds on a concrete record and call sequence, the
exact-increment equivalence on a concrete record with count 5, and the
wrap to 0 on a concrete record with count `2^32 - 1`. -/
theorem participant_count_u32_bounds_witness :
    (0 ≤ (applyOps sampleChannel [Op.join, Op.leave]).participant_count
      ∧ (applyOps sampleChannel [Op.join, Op.leave]).participant_count
          < 4294967296)
    ∧ ((join_channel sampleChannel).1.participant_count
          = sampleChannel.participant_count + 1
        ↔ sampleChannel.participant_count < 4294967295)
    ∧ (join_channel maxChannel).1.participant_count = 0 :=
  ⟨(participant_count_u32_bounds sampleChannel (by decide) (by decide)).1
      [Op.join, Op.leave],
   (participant_count_u32_bounds sampleChannel (by decide) (by decide)).2.1
      rfl,
   (participant_count_u32_bounds maxChannel (by decide) (by decide)).2.2
      rfl rfl⟩

/-- C6 (witness): the frame property instantiated on a concrete record,
call sequence and creation arguments. -/
theorem channel_fields_immutable_witness :
    ((applyOps sampleChannel [Op.join, Op.leave]).id = sampleChannel.id
      ∧ (applyOps sampleChannel [Op.join, Op.leave]).name = sampleChannel.name
      ∧ (applyOps sampleChannel [Op.join, Op.leave]).creator
          = sampleChannel.creator
      ∧ (applyOps sampleChannel [Op.join, Op.leave]).created_at
          = sampleChannel.created_at
      ∧ (applyOps sampleChannel [Op.join, Op.leave]).active
          = sampleChannel.active)
    ∧ ((get_channel_info
          (applyOps (create_channel "general" 7 305441741).2
            [Op.join, Op.leave])).id
          = (create_channel "general" 7 305441741).1
        ∧ (get_channel_info
            (applyOps (create_channel "general" 7 305441741).2
              [Op.join, Op.leave])).name = "general"
        ∧ (get_channel_info
            (applyOps (create_channel "general" 7 305441741).2
              [Op.join, Op.leave])).creator = 7
        ∧ (get_channel_info
            (applyOps (create_channel "general" 7 305441741).2
              [Op.join, Op.leave])).created_at = 305441741
        ∧ (get_channel_info
            (applyOps (create_channel "general" 7 305441741).2
              [Op.join, Op.leave])).active = true) :=
  channel_fields_immutable sampleChannel [Op.join, Op.leave]
    "general" 7 305441741

/-- C7 (witness): the amended end-to-end scenario instantiated at a
concrete creator identity. -/
theorem end_to_end_scenario_witness :
    (create_channel "general" 7 305441741).1 = "CHAT-BE01"
    ∧ (create_channel "general" 7 305441741).2.id = "CHAT-BE01"
    ∧ (join_channel (create_channel "general" 7 305441741).2).2
        = Except.ok
            { id := "CHAT-BE01"
              name := "general"
              creator := 7
              created_at := 305441741
              participant_count := 1
              active := true }
    ∧ (leave_channel
        (join_channel
          (create_channel "general" 7 305441741).2).1).1.participant_count
        = 0
    ∧ get_channel_info
        (leave_channel
          (join_channel (create_channel "general" 7 305441741).2).1).1
        = { id := "CHAT-BE01"
            name := "general"
            creator := 7
            created_at := 305441741
            participant_count := 0
            active := true } :=
  end_to_end_scenario 7

/-- C8 (witness): the creation contract instantiated at concrete
arguments. -/
theorem create_channel_spec_witness :
    (create_channel "general" 7 305441741).1 = generate_channel_id 305441741
    ∧ (create_channel "general" 7 305441741).2.id
        = generate_channel_id 305441741
    ∧ (create_channel "general" 7 305441741).2.name = "general"
    ∧ (create_channel "general" 7 305441741).2.creator = 7
    ∧ (create_channel "general" 7 305441741).2.created_at = 305441741
    ∧ (create_channel "general" 7 305441741).2.active = true
    ∧ (create_channel "general" 7 305441741).2.participant_count = 0 :=
  create_channel_spec "general" 7 305441741
